import Mathlib

/-!
Shallow embedding, in Lean 4, of the core of the `aws_hit_breaks` package
(discovery / snapshot / pause-resume orchestrator, filter layer and snapshot
store).  Each definition mirrors one Python function of the repository:

* `services/models.py`            → `Resource`, `OperationResult`, `AccountSnapshot`
* `services/operations.py`        → `applyResourceFilters`, `isResourcePausable`,
                                    `filterPausableResources`, `validateSnapshot`,
                                    `comprehensivePause`, `comprehensiveResume`
* `services/orchestrator.py`      → `discoverAllResources`, `pauseResources`,
                                    `getOperationSummary`
* `state/snapshot_manager.py`     → `serializeSnapshot`, `deserializeSnapshot`,
                                    `saveSnapshot`, `loadSnapshot`
* `services/ecs.py` / `autoscaling.py` → `ecsResumeResource`, `asgResumeResource`

Python values that cross the JSON boundary are modelled by the inductive
`Json`; Python `float` by `ℚ`; `datetime` by a second-precision `DateTime`
record (the round-trip claim is itself stated only up to second precision).
Thread pools are modelled by sequential iteration in submission order: the
claims under study are about which driver calls happen and what data is
recorded, none of which depends on interleaving, and the cancellation flag is
modelled as never set.  Exceptions are modelled with `Except`.
-/

/-- A JSON tree: the image of Python values under `json.dump`/`json.load`.
Objects keep their (insertion-ordered) field list, as Python dicts do. -/
inductive Json where
  | null : Json
  | bool (b : Bool) : Json
  | num (q : ℚ) : Json
  | str (s : String) : Json
  | arr (l : List Json) : Json
  | obj (l : List (String × Json)) : Json

/-- First-match lookup in an association list: Python `d[k]` / `d.get(k)`. -/
def lookupJ (l : List (String × Json)) (k : String) : Option Json :=
  match l with
  | [] => none
  | (k', v) :: rest => if k' = k then some v else lookupJ rest k

/-- Python dict assignment `d[k] = v`: overwrite in place if the key exists,
otherwise append preserving insertion order. -/
def insertJ (l : List (String × Json)) (k : String) (v : Json) :
    List (String × Json) :=
  match l with
  | [] => [(k, v)]
  | (k', v') :: rest =>
      if k' = k then (k, v) :: rest else (k', v') :: insertJ rest k v

/-- Naive UTC datetime at second precision (the claims compare timestamps
only up to ISO-8601 second precision). -/
structure DateTime where
  year : Nat
  month : Nat
  day : Nat
  hour : Nat
  minute : Nat
  second : Nat
deriving DecidableEq

/-- Field bounds under which the ISO-8601 rendering is faithful (Python's
`datetime` enforces strictly tighter bounds). -/
def DateTime.Valid (t : DateTime) : Prop :=
  t.year < 10000 ∧ t.month < 100 ∧ t.day < 100 ∧
    t.hour < 100 ∧ t.minute < 100 ∧ t.second < 100

instance (t : DateTime) : Decidable t.Valid := by
  unfold DateTime.Valid; infer_instance

/-- Decimal digit character for `d < 10`. -/
def digitChar10 (d : Nat) : Char := Char.ofNat (48 + d)

/-- Numeric value of a decimal digit character. -/
def digitVal (c : Char) : Nat := c.toNat - 48

/-- Two-digit zero-padded rendering, as a character list. -/
def pad2 (n : Nat) : List Char := [digitChar10 (n / 10 % 10), digitChar10 (n % 10)]

/-- Four-digit zero-padded rendering, as a character list. -/
def pad4 (n : Nat) : List Char :=
  [digitChar10 (n / 1000 % 10), digitChar10 (n / 100 % 10),
   digitChar10 (n / 10 % 10), digitChar10 (n % 10)]

/-- `datetime.isoformat()` at second precision: `YYYY-MM-DDTHH:MM:SS`. -/
def DateTime.isoformat (t : DateTime) : String :=
  String.mk (pad4 t.year ++ '-' :: pad2 t.month ++ '-' :: pad2 t.day ++
    'T' :: pad2 t.hour ++ ':' :: pad2 t.minute ++ ':' :: pad2 t.second)

/-- `datetime.strftime('%Y%m%d-%H%M%S')`, used to build snapshot ids. -/
def DateTime.stamp (t : DateTime) : String :=
  String.mk (pad4 t.year ++ pad2 t.month ++ pad2 t.day ++
    '-' :: pad2 t.hour ++ pad2 t.minute ++ pad2 t.second)

/-- `datetime.fromisoformat` on the second-precision shape produced by
`DateTime.isoformat`; any other shape is a parse failure. -/
def DateTime.fromisoformat (s : String) : Option DateTime :=
  match s.data with
  | [y1, y2, y3, y4, '-', m1, m2, '-', d1, d2, 'T',
     h1, h2, ':', n1, n2, ':', s1, s2] =>
      if (y1.isDigit && y2.isDigit && y3.isDigit && y4.isDigit &&
          m1.isDigit && m2.isDigit && d1.isDigit && d2.isDigit &&
          h1.isDigit && h2.isDigit && n1.isDigit && n2.isDigit &&
          s1.isDigit && s2.isDigit) then
        some { year := digitVal y1 * 1000 + digitVal y2 * 100 +
                        digitVal y3 * 10 + digitVal y4,
               month := digitVal m1 * 10 + digitVal m2,
               day := digitVal d1 * 10 + digitVal d2,
               hour := digitVal h1 * 10 + digitVal h2,
               minute := digitVal n1 * 10 + digitVal n2,
               second := digitVal s1 * 10 + digitVal s2 }
      else none
  | _ => none

lemma digitVal_digitChar10 {d : Nat} (h : d < 10) :
    digitVal (digitChar10 d) = d := by
  interval_cases d <;> rfl

lemma isDigit_digitChar10 {d : Nat} (h : d < 10) :
    (digitChar10 d).isDigit = true := by
  interval_cases d <;> rfl

/-- Parsing an ISO rendering recovers the datetime, for in-bounds fields. -/
lemma fromisoformat_isoformat (t : DateTime) (h : t.Valid) :
    DateTime.fromisoformat t.isoformat = some t := by
  obtain ⟨hy, hmo, hd, hh, hmi, hs⟩ := h
  have d1 : t.year / 1000 % 10 < 10 := Nat.mod_lt _ (by norm_num)
  have d2 : t.year / 100 % 10 < 10 := Nat.mod_lt _ (by norm_num)
  have d3 : t.year / 10 % 10 < 10 := Nat.mod_lt _ (by norm_num)
  have d4 : t.year % 10 < 10 := Nat.mod_lt _ (by norm_num)
  have m1 : t.month / 10 % 10 < 10 := Nat.mod_lt _ (by norm_num)
  have m2 : t.month % 10 < 10 := Nat.mod_lt _ (by norm_num)
  have e1 : t.day / 10 % 10 < 10 := Nat.mod_lt _ (by norm_num)
  have e2 : t.day % 10 < 10 := Nat.mod_lt _ (by norm_num)
  have f1 : t.hour / 10 % 10 < 10 := Nat.mod_lt _ (by norm_num)
  have f2 : t.hour % 10 < 10 := Nat.mod_lt _ (by norm_num)
  have g1 : t.minute / 10 % 10 < 10 := Nat.mod_lt _ (by norm_num)
  have g2 : t.minute % 10 < 10 := Nat.mod_lt _ (by norm_num)
  have k1 : t.second / 10 % 10 < 10 := Nat.mod_lt _ (by norm_num)
  have k2 : t.second % 10 < 10 := Nat.mod_lt _ (by norm_num)
  show DateTime.fromisoformat ⟨pad4 t.year ++ '-' :: pad2 t.month ++ '-' ::
      pad2 t.day ++ 'T' :: pad2 t.hour ++ ':' :: pad2 t.minute ++ ':' ::
      pad2 t.second⟩ = some t
  simp only [pad4, pad2, List.cons_append, List.nil_append,
    DateTime.fromisoformat]
  rw [if_pos]
  · congr 1
    have yr : t.year / 1000 % 10 * 1000 + t.year / 100 % 10 * 100 +
        t.year / 10 % 10 * 10 + t.year % 10 = t.year := by omega
    have mo : t.month / 10 % 10 * 10 + t.month % 10 = t.month := by omega
    have da : t.day / 10 % 10 * 10 + t.day % 10 = t.day := by omega
    have ho : t.hour / 10 % 10 * 10 + t.hour % 10 = t.hour := by omega
    have mi : t.minute / 10 % 10 * 10 + t.minute % 10 = t.minute := by omega
    have se : t.second / 10 % 10 * 10 + t.second % 10 = t.second := by omega
    cases t
    simp only [digitVal_digitChar10 d1, digitVal_digitChar10 d2,
      digitVal_digitChar10 d3, digitVal_digitChar10 d4,
      digitVal_digitChar10 m1, digitVal_digitChar10 m2,
      digitVal_digitChar10 e1, digitVal_digitChar10 e2,
      digitVal_digitChar10 f1, digitVal_digitChar10 f2,
      digitVal_digitChar10 g1, digitVal_digitChar10 g2,
      digitVal_digitChar10 k1, digitVal_digitChar10 k2] at yr mo da ho mi se ⊢
    simp [yr, mo, da, ho, mi, se]
  · simp [isDigit_digitChar10, d1, d2, d3, d4, m1, m2, e1, e2, f1, f2,
      g1, g2, k1, k2]

example :
    DateTime.fromisoformat (DateTime.isoformat ⟨2024, 1, 2, 3, 4, 5⟩) =
      some ⟨2024, 1, 2, 3, 4, 5⟩ := by decide

/-! ## Data model (`services/models.py`) -/

/-- `models.Resource`: one AWS resource.  `metadata` is the service-specific
JSON payload; `cost_per_hour` the optional hourly cost hint. -/
structure Resource where
  service_type : String
  resource_id : String
  region : String
  current_state : String
  tags : List (String × String)
  metadata : List (String × Json)
  cost_per_hour : Option ℚ := none

/-- `models.OperationResult`: outcome of one pause/resume/discover attempt. -/
structure OperationResult where
  success : Bool
  resource : Resource
  operation : String
  message : String
  timestamp : DateTime
  duration : Option ℚ := none

/-- `models.AccountSnapshot`: the pre-pause record.  `original_states` is the
composite-key map as built by `pause_resources` (each value is the JSON object
`{current_state, metadata}`). -/
structure AccountSnapshot where
  snapshot_id : String
  timestamp : DateTime
  resources : List Resource
  original_states : List (String × Json)
  operation_results : List OperationResult
  total_estimated_savings : ℚ

/-- The composite key `f"{service_type}:{region}:{resource_id}"`. -/
def Resource.stateKey (r : Resource) : String :=
  r.service_type ++ ":" ++ r.region ++ ":" ++ r.resource_id

/-- The value stored under a resource's key when freezing original states in
`OperationOrchestrator.pause_resources`:
`{'current_state': r.current_state, 'metadata': r.metadata.copy()}`. -/
def Resource.originalEntry (r : Resource) : Json :=
  .obj [("current_state", .str r.current_state), ("metadata", .obj r.metadata)]

/-- First-match lookup in the tags dict. -/
def lookupTag (l : List (String × String)) (k : String) : Option String :=
  match l with
  | [] => none
  | (k', v) :: rest => if k' = k then some v else lookupTag rest k

/-! ## Error taxonomy (`core/exceptions.py`) -/

/-- The concrete `AWSBreakError` subclasses. -/
inductive ErrCat where
  | configuration
  | authentication
  | service
  | state
  | validation
  | userCancelled
deriving DecidableEq

/-- A raised `AWSBreakError`: its subclass (category) and message. -/
structure BreakError where
  category : ErrCat
  message : String
deriving DecidableEq

/-- `ServiceError(msg)`. -/
def serviceError (msg : String) : BreakError := ⟨.service, msg⟩

/-- `StateError(msg)`. -/
def stateError (msg : String) : BreakError := ⟨.state, msg⟩

/-! ## Filter layer (`PauseResumeOperations._apply_resource_filters`) -/

/-- The recognised keys of the `resource_filters` dict; an absent key is
`none`.  `tags` / `exclude_tags` are themselves dicts of required /
forbidden tag pairs. -/
structure Filters where
  service_types : Option (List String) := none
  regions : Option (List String) := none
  tags : Option (List (String × String)) := none
  exclude_tags : Option (List (String × String)) := none
  resource_ids : Option (List String) := none
  exclude_resource_ids : Option (List String) := none

/-- The empty filter dict `{}` (also the behaviour of passing `None`). -/
def Filters.empty : Filters := {}

/-- One step of the `tags` loop: keep resources carrying tag `k` with value
`v`. -/
def applyTagFilter (rs : List Resource) (kv : String × String) : List Resource :=
  rs.filter fun r => decide (lookupTag r.tags kv.1 = some kv.2)

/-- One step of the `exclude_tags` loop: drop resources carrying tag `k`
with value `v`. -/
def applyExcludeTagFilter (rs : List Resource) (kv : String × String) :
    List Resource :=
  rs.filter fun r => !decide (lookupTag r.tags kv.1 = some kv.2)

/-- The `service_types` clause: `r.service_type in service_types`. -/
def stageServiceTypes (o : Option (List String)) (rs : List Resource) :
    List Resource :=
  match o with
  | none => rs
  | some l => rs.filter fun r => decide (r.service_type ∈ l)

/-- The `regions` clause: `r.region in regions`. -/
def stageRegions (o : Option (List String)) (rs : List Resource) :
    List Resource :=
  match o with
  | none => rs
  | some l => rs.filter fun r => decide (r.region ∈ l)

/-- The `tags` clause: one `applyTagFilter` pass per required pair. -/
def stageTags (o : Option (List (String × String))) (rs : List Resource) :
    List Resource :=
  match o with
  | none => rs
  | some kvs => kvs.foldl applyTagFilter rs

/-- The `exclude_tags` clause. -/
def stageExcludeTags (o : Option (List (String × String)))
    (rs : List Resource) : List Resource :=
  match o with
  | none => rs
  | some kvs => kvs.foldl applyExcludeTagFilter rs

/-- The `resource_ids` clause: `r.resource_id in resource_ids`. -/
def stageResourceIds (o : Option (List String)) (rs : List Resource) :
    List Resource :=
  match o with
  | none => rs
  | some l => rs.filter fun r => decide (r.resource_id ∈ l)

/-- The `exclude_resource_ids` clause: `r.resource_id not in exclude_ids`. -/
def stageExcludeResourceIds (o : Option (List String)) (rs : List Resource) :
    List Resource :=
  match o with
  | none => rs
  | some l => rs.filter fun r => !decide (r.resource_id ∈ l)

/-- `PauseResumeOperations._apply_resource_filters`: the six clauses applied
in source order; an absent key leaves the list unchanged. -/
def applyResourceFilters (resources : List Resource)
    (filters : Option Filters) : List Resource :=
  match filters with
  | none => resources
  | some f =>
      stageExcludeResourceIds f.exclude_resource_ids
        (stageResourceIds f.resource_ids
          (stageExcludeTags f.exclude_tags
            (stageTags f.tags
              (stageRegions f.regions
                (stageServiceTypes f.service_types resources)))))

/-! ## Pausability (`PauseResumeOperations._is_resource_pausable`) -/

/-- The per-kind pausability rule. -/
def isResourcePausable (r : Resource) : Bool :=
  if r.service_type = "ec2" then r.current_state = "running"
  else if r.service_type = "rds" then r.current_state = "available"
  else if r.service_type = "ecs" then
    r.current_state ∈ ["running", "scaling_up", "scaling_down"]
  else if r.service_type = "autoscaling" then
    r.current_state ∈ ["running", "suspended"]
  else false

/-- `PauseResumeOperations._filter_pausable_resources`: non-pausable
resources are dropped (only a debug log records them). -/
def filterPausableResources (resources : List Resource) : List Resource :=
  resources.filter isResourcePausable

/-! ## Orchestrator (`services/orchestrator.py`)

The orchestrator is parametrised by `mgrs`, the `service_managers` registry:
`mgrs st` is `some driver` for a supported service type and `none` otherwise
(in the source an unsupported type makes `get_service_manager` raise, which
`pause_resources`/`resume_resources` catch and turn into a failed result).
Driver calls are modelled as pure functions; the thread pool is modelled by
mapping in submission order, and the cancellation flag as never set. -/

/-- A driver registry: `OperationOrchestrator.service_managers` with the
per-resource driver call already bound to `(service_type, region)`. -/
def Managers : Type := String → Option (Resource → OperationResult)

/-- One unit of the pause/resume fan-out: call the driver, or record the
`get_service_manager` failure as a failed `OperationResult`. -/
def invokeManager (mgrs : Managers) (op : String) (now : DateTime)
    (r : Resource) : OperationResult :=
  match mgrs r.service_type with
  | some driver => driver r
  | none =>
      { success := false, resource := r, operation := op,
        message := "Failed to get service manager: Unsupported service type: "
          ++ r.service_type,
        timestamp := now, duration := some 0 }

/-- The freeze step of `pause_resources`: the serial loop that records
`original_states[key] = {current_state, metadata}` before any mutation. -/
def buildOriginalStates (resources : List Resource) : List (String × Json) :=
  resources.foldl (fun acc r => insertJ acc r.stateKey r.originalEntry) []

/-- One iteration of the `total_estimated_savings` loop of
`pause_resources`: Python's `if resource.cost_per_hour:` skips both `None`
and `0.0`. -/
def savingsStep (acc : ℚ) (r : Resource) : ℚ :=
  match r.cost_per_hour with
  | some c => if c ≠ 0 then acc + c * 24 * 30 else acc
  | none => acc

/-- The `total_estimated_savings` loop of `pause_resources`. -/
def totalEstimatedSavings (resources : List Resource) : ℚ :=
  resources.foldl savingsStep 0

/-- `OperationOrchestrator.pause_resources`: freeze original states, fan out
the driver pause calls, and assemble the snapshot. -/
def pauseResources (mgrs : Managers) (resources : List Resource)
    (startTime : DateTime) : List OperationResult × AccountSnapshot :=
  let snapshotId := "pause-" ++ startTime.stamp
  let originalStates := buildOriginalStates resources
  let operationResults := resources.map (invokeManager mgrs "pause" startTime)
  (operationResults,
   { snapshot_id := snapshotId,
     timestamp := startTime,
     resources := resources,
     original_states := originalStates,
     operation_results := operationResults,
     total_estimated_savings := totalEstimatedSavings resources })

/-- `OperationOrchestrator.resume_resources`: fan out the driver resume calls
over the snapshot's resources. -/
def resumeResources (mgrs : Managers) (snapshot : AccountSnapshot)
    (now : DateTime) : List OperationResult :=
  snapshot.resources.map (invokeManager mgrs "resume" now)

/-- `OperationOrchestrator.discover_all_resources`, with the per-pair cloud
outcome supplied as data: for each submitted `(service_type, region)` pair,
either the discovered resources or the exception message.  Successes extend
`all_resources`; failures only extend the local `discovery_errors` list,
which is written to the log.  Every path returns `all_resources` normally —
the `Raises: ServiceError` clause of the docstring has no corresponding
`raise`. -/
def discoverAllResources
    (outcomes : List ((String × String) × Except String (List Resource))) :
    Except BreakError (List Resource) :=
  let collected := outcomes.foldl
    (fun (acc : List Resource × List String) p =>
      match p.2 with
      | .ok rs => (acc.1 ++ rs, acc.2)
      | .error e =>
          (acc.1,
           acc.2 ++ ["Discovery failed for " ++ p.1.1 ++ " in " ++ p.1.2
             ++ ": " ++ e]))
    ([], [])
  .ok collected.1

/-- The entry of `by_service_type` for one service type. -/
structure ServiceCounts where
  success : Nat
  failed : Nat
  total : Nat
deriving DecidableEq

/-- One step of the `by_service` grouping loop of `get_operation_summary`:
create the entry on first sight, then bump `total` and one of
`success`/`failed`. -/
def updateByService (m : List (String × ServiceCounts)) (st : String)
    (ok : Bool) : List (String × ServiceCounts) :=
  match m with
  | [] =>
      [(st, { success := if ok then 1 else 0,
              failed := if ok then 0 else 1, total := 1 })]
  | (k, c) :: rest =>
      if k = st then
        (k, { success := c.success + (if ok then 1 else 0),
              failed := c.failed + (if ok then 0 else 1),
              total := c.total + 1 }) :: rest
      else (k, c) :: updateByService rest st ok

/-- The dictionary returned by `get_operation_summary`. -/
structure OperationSummary where
  total_operations : Nat
  successful_operations : Nat
  failed_operations : Nat
  success_rate : ℚ
  total_duration_seconds : ℚ
  by_service_type : List (String × ServiceCounts)
  failed_resources : List (String × String × String × String)

/-- `OperationOrchestrator.get_operation_summary`. -/
def getOperationSummary (results : List OperationResult) : OperationSummary :=
  let successful := results.filter (·.success)
  let failed := results.filter (fun r => !r.success)
  { total_operations := results.length,
    successful_operations := successful.length,
    failed_operations := failed.length,
    success_rate :=
      if results.isEmpty then 0 else (successful.length : ℚ) / results.length,
    total_duration_seconds :=
      results.foldl (fun acc r => acc + r.duration.getD 0) 0,
    by_service_type :=
      results.foldl (fun m r => updateByService m r.resource.service_type r.success) [],
    failed_resources :=
      failed.map fun r =>
        (r.resource.service_type, r.resource.resource_id,
         r.resource.region, r.message) }

/-! ## High-level operations (`services/operations.py`) -/

/-- `PauseResumeOperations._generate_dry_run_results`. -/
def generateDryRunResults (resources : List Resource) (now : DateTime) :
    List OperationResult :=
  resources.map fun r =>
    { success := true, resource := r, operation := "pause",
      message := "[DRY RUN] Would pause " ++ r.service_type ++ " "
        ++ r.resource_id,
      timestamp := now, duration := some 0 }

/-- `PauseResumeOperations._generate_resume_dry_run_results`. -/
def generateResumeDryRunResults (resources : List Resource) (now : DateTime) :
    List OperationResult :=
  resources.map fun r =>
    { success := true, resource := r, operation := "resume",
      message := "[DRY RUN] Would resume " ++ r.service_type ++ " "
        ++ r.resource_id,
      timestamp := now, duration := some 0 }

/-- `PauseResumeOperations.comprehensive_pause`, with the discovery result
supplied as `allResources` (in the source it is the return value of
`orchestrator.discover_all_resources`).  Mirrors the source's early returns:
an empty discovery, or an empty pausable set, returns `([], None)`. -/
def comprehensivePause (mgrs : Managers) (allResources : List Resource)
    (filters : Option Filters) (dryRun : Bool) (now : DateTime) :
    List OperationResult × Option AccountSnapshot :=
  if allResources.isEmpty then ([], none)
  else
    let filtered := applyResourceFilters allResources filters
    let pausable := filterPausableResources filtered
    if pausable.isEmpty then ([], none)
    else if dryRun then (generateDryRunResults pausable now, none)
    else
      let step := pauseResources mgrs pausable now
      (step.1, some step.2)

/-- The loop body of `_validate_snapshot`: the composite key of the first
resource that has no entry in `original_states`, if any. -/
def firstMissingState (states : List (String × Json)) :
    List Resource → Option String
  | [] => none
  | r :: rest =>
      if (lookupJ states r.stateKey).isNone then some r.stateKey
      else firstMissingState states rest

/-- `PauseResumeOperations._validate_snapshot`.  Each failing check raises
`ServiceError` (category `service`). -/
def validateSnapshot (snapshot : AccountSnapshot) : Except BreakError Unit :=
  if snapshot.resources.isEmpty then
    .error (serviceError "Snapshot contains no resources to resume")
  else if snapshot.original_states.isEmpty then
    .error (serviceError "Snapshot missing original states - cannot resume safely")
  else
    match firstMissingState snapshot.original_states snapshot.resources with
    | some key =>
        .error (serviceError ("Missing original state for resource " ++ key))
    | none => .ok ()

/-- `PauseResumeOperations.comprehensive_resume`: validate first; a
validation error propagates before any driver is consulted. -/
def comprehensiveResume (mgrs : Managers) (snapshot : AccountSnapshot)
    (dryRun : Bool) (now : DateTime) : Except BreakError (List OperationResult) :=
  match validateSnapshot snapshot with
  | .error e => .error e
  | .ok _ =>
      if dryRun then .ok (generateResumeDryRunResults snapshot.resources now)
      else .ok (resumeResources mgrs snapshot now)

/-! ## Snapshot store (`state/snapshot_manager.py`)

Files are modelled as a map from file name (within the snapshot directory)
to contents; contents are either a parsed JSON tree (`json.dump` followed by
`json.load` is the identity on JSON-representable trees) or `corrupt` for a
file that does not parse (e.g. a partial write). -/

/-- Contents of one file in the snapshot directory. -/
inductive FileData where
  | valid (j : Json) : FileData
  | corrupt : FileData

/-- The snapshot directory: newest write first. -/
def FS : Type := List (String × FileData)

/-- Read a file, `none` when absent. -/
def FS.read (fs : FS) (name : String) : Option FileData :=
  match fs with
  | [] => none
  | (n, d) :: rest => if n = name then some d else FS.read rest name

/-- Remove a file. -/
def FS.erase (fs : FS) (name : String) : FS :=
  match fs with
  | [] => []
  | (n, d) :: rest =>
      if n = name then FS.erase rest name else (n, d) :: FS.erase rest name

/-- Create or overwrite a file. -/
def FS.write (fs : FS) (name : String) (d : FileData) : FS :=
  (name, d) :: fs.erase name

/-- `Path.replace`: atomically rename `src` onto `dst` (only reached with
`src` present in `save_snapshot`). -/
def FS.rename (fs : FS) (src dst : String) : FS :=
  match fs.read src with
  | some d => (fs.erase src).write dst d
  | none => fs

/-- `SnapshotManager._serialize_resource`. -/
def serializeResource (r : Resource) : Json :=
  .obj [("service_type", .str r.service_type),
        ("resource_id", .str r.resource_id),
        ("region", .str r.region),
        ("current_state", .str r.current_state),
        ("tags", .obj (r.tags.map fun kv => (kv.1, .str kv.2))),
        ("metadata", .obj r.metadata),
        ("cost_per_hour",
          match r.cost_per_hour with | none => .null | some q => .num q)]

/-- `SnapshotManager._serialize_operation_result`. -/
def serializeOperationResult (res : OperationResult) : Json :=
  .obj [("success", .bool res.success),
        ("resource", serializeResource res.resource),
        ("operation", .str res.operation),
        ("message", .str res.message),
        ("timestamp", .str res.timestamp.isoformat),
        ("duration",
          match res.duration with | none => .null | some q => .num q)]

/-- `SnapshotManager._serialize_snapshot` (the `region` field is derived
from the first resource and is ignored on load). -/
def serializeSnapshot (s : AccountSnapshot) : Json :=
  .obj [("snapshot_id", .str s.snapshot_id),
        ("timestamp", .str s.timestamp.isoformat),
        ("region",
          match s.resources with | [] => .null | r :: _ => .str r.region),
        ("resources", .arr (s.resources.map serializeResource)),
        ("original_states", .obj s.original_states),
        ("operation_results",
          .arr (s.operation_results.map serializeOperationResult)),
        ("total_estimated_savings", .num s.total_estimated_savings)]

/-- Require a JSON string (an indexing/type failure on load becomes a
`StateError`, modelled as deserialisation returning `none`). -/
def asStr : Json → Option String
  | .str s => some s
  | _ => none

/-- Require a JSON boolean. -/
def asBool : Json → Option Bool
  | .bool b => some b
  | _ => none

/-- Map a partial conversion over a list, failing if any element fails
(a Python comprehension whose body may raise). -/
def mapOption {α β : Type} (g : α → Option β) : List α → Option (List β)
  | [] => some []
  | x :: xs =>
      match g x with
      | none => none
      | some y =>
          match mapOption g xs with
          | none => none
          | some ys => some (y :: ys)

/-- `tags` comes back from JSON as a string-to-string dict. -/
def tagsOfJson : Json → Option (List (String × String))
  | .obj l => mapOption (fun kv => (asStr kv.2).map fun v => (kv.1, v)) l
  | _ => none

/-- `SnapshotManager._deserialize_resource`. -/
def deserializeResource (j : Json) : Option Resource :=
  match j with
  | .obj l => do
      let st ← lookupJ l "service_type" >>= asStr
      let rid ← lookupJ l "resource_id" >>= asStr
      let rg ← lookupJ l "region" >>= asStr
      let cs ← lookupJ l "current_state" >>= asStr
      let tags ← match lookupJ l "tags" with
        | none => some []
        | some tj => tagsOfJson tj
      let md ← match lookupJ l "metadata" with
        | none => some []
        | some (.obj m) => some m
        | some _ => none
      some { service_type := st, resource_id := rid, region := rg,
             current_state := cs, tags := tags, metadata := md,
             cost_per_hour :=
               match lookupJ l "cost_per_hour" with
               | some (.num q) => some q
               | _ => none }
  | _ => none

/-- `SnapshotManager._deserialize_operation_result`. -/
def deserializeOperationResult (j : Json) : Option OperationResult :=
  match j with
  | .obj l => do
      let ok ← lookupJ l "success" >>= asBool
      let res ← lookupJ l "resource" >>= deserializeResource
      let op ← lookupJ l "operation" >>= asStr
      let msg ← lookupJ l "message" >>= asStr
      let ts ← lookupJ l "timestamp" >>= asStr >>= DateTime.fromisoformat
      some { success := ok, resource := res, operation := op, message := msg,
             timestamp := ts,
             duration :=
               match lookupJ l "duration" with
               | some (.num q) => some q
               | _ => none }
  | _ => none

/-- `SnapshotManager._deserialize_snapshot`. -/
def deserializeSnapshot (j : Json) : Option AccountSnapshot :=
  match j with
  | .obj l => do
      let sid ← lookupJ l "snapshot_id" >>= asStr
      let ts ← lookupJ l "timestamp" >>= asStr >>= DateTime.fromisoformat
      let rs ← match lookupJ l "resources" with
        | none => some []
        | some (.arr a) => mapOption deserializeResource a
        | some _ => none
      let ors ← match lookupJ l "operation_results" with
        | none => some []
        | some (.arr a) => mapOption deserializeOperationResult a
        | some _ => none
      let states ← match lookupJ l "original_states" with
        | none => some []
        | some (.obj m) => some m
        | some _ => none
      some { snapshot_id := sid, timestamp := ts, resources := rs,
             original_states := states, operation_results := ors,
             total_estimated_savings :=
               match lookupJ l "total_estimated_savings" with
               | some (.num q) => q
               | _ => 0 }
  | _ => none

/-- Where `save_snapshot` can fail: nowhere, while writing the temp file
(`open`/`json.dump`, leaving a partial temp file behind), or while renaming
(temp file written in full, target untouched).  The string is the exception
text. -/
inductive SaveFailure where
  | ok : SaveFailure
  | atWrite (e : String) : SaveFailure
  | atRename (e : String) : SaveFailure

/-- `SnapshotManager.save_snapshot`: serialise, write `<id>.tmp`, rename it
onto `<id>.json`.  The `except` block turns any failure into
`StateError(f"Failed to save snapshot: {e}")` — and performs no cleanup of
the temp file. -/
def saveSnapshot (fs : FS) (snapshot : AccountSnapshot) (fail : SaveFailure) :
    FS × Except BreakError String :=
  let filename := snapshot.snapshot_id ++ ".json"
  let tempname := snapshot.snapshot_id ++ ".tmp"
  match fail with
  | .atWrite e =>
      (fs.write tempname .corrupt,
       .error (stateError ("Failed to save snapshot: " ++ e)))
  | .atRename e =>
      (fs.write tempname (.valid (serializeSnapshot snapshot)),
       .error (stateError ("Failed to save snapshot: " ++ e)))
  | .ok =>
      let fs1 := fs.write tempname (.valid (serializeSnapshot snapshot))
      (fs1.rename tempname filename, .ok filename)

/-- `SnapshotManager.load_snapshot`: `none` when the file is absent, a
`state`-category error when it does not parse or does not deserialise. -/
def loadSnapshot (fs : FS) (snapshotId : String) :
    Except BreakError (Option AccountSnapshot) :=
  match fs.read (snapshotId ++ ".json") with
  | none => .ok none
  | some .corrupt => .error (stateError "Snapshot file corrupted")
  | some (.valid j) =>
      match deserializeSnapshot j with
      | some s => .ok (some s)
      | none => .error (stateError "Failed to load snapshot")

/-! ## ECS / Auto Scaling resume drivers (`services/ecs.py`,
`services/autoscaling.py`)

Only the mutating client calls are observable here; the convergence waiters
are read-only polls and the cloud is modelled on its happy path (client calls
succeed), which is the path the resume-default claim is about. -/

/-- A mutating ECS client call. -/
inductive EcsCall where
  | updateService (cluster : String) (service : String) (desiredCount : ℚ)
deriving DecidableEq

/-- A mutating Auto Scaling client call. -/
inductive AsgCall where
  | resumeProcesses (asgName : String) (processes : List String)
  | setDesiredCapacity (asgName : String) (capacity : ℚ)
deriving DecidableEq

/-- The fixed scaling process set of `autoscaling.py`. -/
def scalingProcessSet : List String :=
  ["Launch", "Terminate", "HealthCheck", "ReplaceUnhealthy",
   "AZRebalance", "AlarmNotification", "ScheduledActions", "AddToLoadBalancer"]

/-- `ECSServiceManager.resume_resource`: the restore target is
`metadata.get('desired_count', 1)`; the already-running guard compares
`metadata.get('desired_count', 0) > 0` (a non-numeric value there, or a
missing/non-string `cluster_arn`, raises and becomes a failure result). -/
def ecsResumeResource (r : Resource) (now : DateTime) :
    List EcsCall × OperationResult :=
  let failure : String → List EcsCall × OperationResult := fun msg =>
    ([], { success := false, resource := r, operation := "resume",
           message := msg, timestamp := now, duration := some 0 })
  let proceed : List EcsCall × OperationResult :=
    match lookupJ r.metadata "cluster_arn",
          (lookupJ r.metadata "desired_count").getD (.num 1) with
    | some (.str arn), .num q =>
        ([.updateService arn r.resource_id q],
         { success := true, resource := r, operation := "resume",
           message := "Successfully scaled ECS service " ++ r.resource_id,
           timestamp := now, duration := some 0 })
    | _, _ =>
        failure ("Failed to resume ECS service " ++ r.resource_id)
  if r.current_state = "running" then
    match (lookupJ r.metadata "desired_count").getD (.num 0) with
    | .num g =>
        if 0 < g then
          failure ("ECS service " ++ r.resource_id ++ " is already running")
        else proceed
    | _ => failure ("Failed to resume ECS service " ++ r.resource_id)
  else proceed

/-- `AutoScalingServiceManager.resume_resource`: a `running` group fails
fast; otherwise processes are resumed and the capacity is restored to
`metadata.get('desired_capacity', 1)` (a non-numeric value there fails after
the process-resume call). -/
def asgResumeResource (r : Resource) (now : DateTime) :
    List AsgCall × OperationResult :=
  if r.current_state = "running" then
    ([], { success := false, resource := r, operation := "resume",
           message := "Auto Scaling Group " ++ r.resource_id
             ++ " is already running",
           timestamp := now, duration := some 0 })
  else
    match (lookupJ r.metadata "desired_capacity").getD (.num 1) with
    | .num q =>
        ([.resumeProcesses r.resource_id scalingProcessSet,
          .setDesiredCapacity r.resource_id q],
         { success := true, resource := r, operation := "resume",
           message := "Successfully resumed Auto Scaling Group "
             ++ r.resource_id,
           timestamp := now, duration := some 0 })
    | _ =>
        ([.resumeProcesses r.resource_id scalingProcessSet],
         { success := false, resource := r, operation := "resume",
           message := "Failed to resume Auto Scaling Group " ++ r.resource_id,
           timestamp := now, duration := some 0 })

/-! ## Auxiliary notions used by the statements -/

/-- Sum of the per-service `total` counts of a `by_service_type` table. -/
def sumServiceTotals (m : List (String × ServiceCounts)) : Nat :=
  (m.map fun p => p.2.total).sum

/-- One filter clause, as in the keys of the `resource_filters` dict
(`tags`/`exclude_tags` clauses are single required/forbidden pairs). -/
inductive FilterClause where
  | serviceTypes (l : List String)
  | regionsIn (l : List String)
  | tagPair (k v : String)
  | excludeTagPair (k v : String)
  | resourceIds (l : List String)
  | excludeResourceIds (l : List String)

/-- Add a clause to a filter set: a list-valued key is set, a tag pair is
appended to the (possibly absent) tag dict. -/
def Filters.addClause (f : Filters) : FilterClause → Filters
  | .serviceTypes l => { f with service_types := some l }
  | .regionsIn l => { f with regions := some l }
  | .tagPair k v => { f with tags := some (f.tags.getD [] ++ [(k, v)]) }
  | .excludeTagPair k v =>
      { f with exclude_tags := some (f.exclude_tags.getD [] ++ [(k, v)]) }
  | .resourceIds l => { f with resource_ids := some l }
  | .excludeResourceIds l => { f with exclude_resource_ids := some l }

/-- A clause genuinely *adds* to the filter set: a list-valued key must not
already be present (overwriting an existing key is not an addition); a tag
pair may always be added to the tag dict. -/
def Filters.admitsClause (f : Filters) : FilterClause → Prop
  | .serviceTypes _ => f.service_types = none
  | .regionsIn _ => f.regions = none
  | .tagPair _ _ => True
  | .excludeTagPair _ _ => True
  | .resourceIds _ => f.resource_ids = none
  | .excludeResourceIds _ => f.exclude_resource_ids = none

/-! # Theorems -/

section SavingsAndSummary

lemma savingsStep_none {r : Resource} (h : r.cost_per_hour = none)
    (acc : ℚ) : savingsStep acc r = acc := by
  simp [savingsStep, h]

lemma savingsStep_some {r : Resource} {c : ℚ} (h : r.cost_per_hour = some c)
    (acc : ℚ) : savingsStep acc r = if c ≠ 0 then acc + c * 24 * 30 else acc := by
  simp [savingsStep, h]

lemma totalEstimatedSavings_foldl (l : List Resource) (acc : ℚ) :
    l.foldl savingsStep acc
      = acc + ((l.filterMap (·.cost_per_hour)).map fun c => c * 720).sum := by
  induction l generalizing acc with
  | nil => simp
  | cons r rest ih =>
      rw [List.foldl_cons]
      cases hr : r.cost_per_hour with
      | none =>
          rw [savingsStep_none hr, ih]
          simp [List.filterMap_cons, hr]
      | some c =>
          rw [savingsStep_some hr, ih]
          by_cases hc : c = 0
          · subst hc
            simp [List.filterMap_cons, hr]
          · rw [if_pos hc]
            simp only [List.filterMap_cons, hr, List.map_cons, List.sum_cons]
            ring

/-- **C8.** The snapshot built by the pause operation records
`total_estimated_savings` equal to the sum, over the input resources that
carry a cost hint, of `cost_hint × 24 × 30 = cost_hint × 720`; resources
with no hint contribute nothing. -/
theorem pause_savings_formula (mgrs : Managers) (resources : List Resource)
    (startTime : DateTime) :
    (pauseResources mgrs resources startTime).2.total_estimated_savings
      = ((resources.filterMap (·.cost_per_hour)).map fun c => c * 720).sum := by
  show totalEstimatedSavings resources = _
  rw [totalEstimatedSavings, totalEstimatedSavings_foldl]
  simp

lemma sumServiceTotals_update (m : List (String × ServiceCounts))
    (st : String) (ok : Bool) :
    sumServiceTotals (updateByService m st ok) = sumServiceTotals m + 1 := by
  induction m with
  | nil => simp [updateByService, sumServiceTotals]
  | cons p rest ih =>
      by_cases h : p.1 = st
      · simp [updateByService, h, sumServiceTotals]
        omega
      · simp only [updateByService, if_neg h, sumServiceTotals, List.map_cons,
          List.sum_cons] at ih ⊢
        omega

lemma sumServiceTotals_foldl (results : List OperationResult)
    (m : List (String × ServiceCounts)) :
    sumServiceTotals
      (results.foldl
        (fun m r => updateByService m r.resource.service_type r.success) m)
    = sumServiceTotals m + results.length := by
  induction results generalizing m with
  | nil => simp
  | cons r rest ih =>
      simp only [List.foldl_cons, ih, sumServiceTotals_update,
        List.length_cons]
      omega

/-- **C9.** For any result sequence: the per-kind breakdown totals sum to
the total count; successes plus failures equal the total; the success ratio
is successes over total, and `0` for the empty sequence.  (The summary is a
plain function of the result list by construction: `getOperationSummary` is
a `def` with no other inputs.) -/
theorem summary_arithmetic (results : List OperationResult) :
    sumServiceTotals (getOperationSummary results).by_service_type
        = (getOperationSummary results).total_operations
      ∧ (getOperationSummary results).successful_operations
          + (getOperationSummary results).failed_operations
        = (getOperationSummary results).total_operations
      ∧ (results ≠ [] →
          (getOperationSummary results).success_rate
            = ((getOperationSummary results).successful_operations : ℚ)
              / (getOperationSummary results).total_operations)
      ∧ (results = [] → (getOperationSummary results).success_rate = 0) := by
  refine ⟨?_, ?_, ?_, ?_⟩
  · show sumServiceTotals (results.foldl _ []) = results.length
    rw [sumServiceTotals_foldl]
    simp [sumServiceTotals]
  · exact (List.length_eq_length_filter_add
      (fun r : OperationResult => r.success)).symm
  · intro h
    have he : results.isEmpty = false := by simpa using h
    simp only [getOperationSummary, he, Bool.false_eq_true, if_false]
  · intro h
    subst h
    rfl

/-- Witness for `summary_arithmetic` at a concrete one-element sequence. -/
theorem summary_arithmetic_witness :
    (getOperationSummary
        [{ success := true,
           resource := { service_type := "ec2", resource_id := "i-1",
                         region := "us-east-1", current_state := "running",
                         tags := [], metadata := [] },
           operation := "pause", message := "ok",
           timestamp := ⟨2024, 1, 1, 0, 0, 0⟩ }]).success_rate
      = (1 : ℚ) / 1 :=
  (summary_arithmetic _).2.2.1 (by simp)

end SavingsAndSummary

section DiscoveryAndValidation

/-- **C2 (code bug).** `discover_all_resources` never signals a discovery
error: on every input it returns the collected resource list normally — in
particular when *every* `(region, service-kind)` pair fails, where both its
own docstring (`Raises: ServiceError: If discovery fails for all services`)
and the spec require a signalled error, it returns the empty list with the
failures only recorded in `discovery_errors` (the log). -/
theorem discovery_all_failed_returns_ok :
    (∀ outcomes, ∃ rs, discoverAllResources outcomes = .ok rs)
      ∧ discoverAllResources
          [(("ec2", "us-east-1"), .error "connection refused"),
           (("rds", "us-east-1"), .error "connection refused")]
        = .ok [] :=
  ⟨fun _ => ⟨_, rfl⟩, rfl⟩

lemma firstMissingState_eq_none (states : List (String × Json)) :
    ∀ l : List Resource,
      firstMissingState states l = none ↔
        ∀ r ∈ l, lookupJ states r.stateKey ≠ none
  | [] => by simp [firstMissingState]
  | r :: rest => by
      by_cases h : (lookupJ states r.stateKey).isNone
      · simp only [firstMissingState, if_pos h]
        simp only [Option.isNone_iff_eq_none] at h
        simp [h]
      · simp only [firstMissingState, if_neg h]
        simp only [Option.isNone_iff_eq_none] at h
        rw [firstMissingState_eq_none states rest]
        simp [h]

/-- **C3 (corrected).** `_validate_snapshot` passes exactly when the
resources list is nonempty, `original_states` is nonempty, and every
resource's composite key has an entry; every validation failure raises a
`ServiceError` — category `service`, not `state` as claimed — and on a
validation error `comprehensive_resume` propagates it before any driver is
consulted (the result does not depend on the registry `mgrs`). -/
theorem validate_snapshot_checks :
    (∀ snap : AccountSnapshot,
        validateSnapshot snap = .ok () ↔
          (snap.resources ≠ [] ∧ snap.original_states ≠ [] ∧
           ∀ r ∈ snap.resources, lookupJ snap.original_states r.stateKey ≠ none))
      ∧ (∀ (snap : AccountSnapshot) (e : BreakError),
          validateSnapshot snap = .error e → e.category = .service)
      ∧ (∀ (mgrs : Managers) (snap : AccountSnapshot) (dryRun : Bool)
          (now : DateTime) (e : BreakError),
          validateSnapshot snap = .error e →
            comprehensiveResume mgrs snap dryRun now = .error e) := by
  refine ⟨?_, ?_, ?_⟩
  · intro snap
    rw [validateSnapshot]
    by_cases h1 : snap.resources.isEmpty
    · rw [if_pos h1]
      simp only [List.isEmpty_iff] at h1
      simp [h1]
    · rw [if_neg h1]
      simp only [List.isEmpty_iff] at h1
      by_cases h2 : snap.original_states.isEmpty
      · rw [if_pos h2]
        simp only [List.isEmpty_iff] at h2
        simp [h1, h2]
      · rw [if_neg h2]
        simp only [List.isEmpty_iff] at h2
        cases h3 : firstMissingState snap.original_states snap.resources with
        | some key =>
            have : ¬ ∀ r ∈ snap.resources,
                lookupJ snap.original_states r.stateKey ≠ none := by
              rw [← firstMissingState_eq_none snap.original_states]
              simp [h3]
            simp [h1, h2, this]
        | none =>
            have := (firstMissingState_eq_none
              snap.original_states snap.resources).mp h3
            simp only [h1, h2, ne_eq, not_false_eq_true, true_and]
            exact (true_iff _).mpr this
  · intro snap e h
    rw [validateSnapshot] at h
    by_cases h1 : snap.resources.isEmpty
    · rw [if_pos h1] at h
      cases h
      rfl
    · rw [if_neg h1] at h
      by_cases h2 : snap.original_states.isEmpty
      · rw [if_pos h2] at h
        cases h
        rfl
      · rw [if_neg h2] at h
        cases h3 : firstMissingState snap.original_states snap.resources with
        | some key =>
            rw [h3] at h
            cases h
            rfl
        | none =>
            rw [h3] at h
            cases h
  · intro mgrs snap dryRun now e h
    rw [comprehensiveResume, h]

/-- Counterexample to C3 as stated: an empty snapshot makes validation fail
with a `service`-category error, not a `state`-category one. -/
theorem validate_snapshot_category_counterexample :
    validateSnapshot
        { snapshot_id := "pause-20240101-000000",
          timestamp := ⟨2024, 1, 1, 0, 0, 0⟩,
          resources := [], original_states := [],
          operation_results := [], total_estimated_savings := 0 }
      = .error (serviceError "Snapshot contains no resources to resume")
    ∧ (serviceError "Snapshot contains no resources to resume").category
        ≠ ErrCat.state :=
  ⟨rfl, by decide⟩

/-- Witness for `validate_snapshot_checks`: the fail-fast branch applied to
a concrete invalid snapshot and a registry that would crash on any lookup,
showing the driver registry is never consulted. -/
theorem validate_snapshot_checks_witness :
    comprehensiveResume (fun _ => none)
        { snapshot_id := "pause-20240101-000000",
          timestamp := ⟨2024, 1, 1, 0, 0, 0⟩,
          resources := [], original_states := [],
          operation_results := [], total_estimated_savings := 0 }
        false ⟨2024, 1, 2, 0, 0, 0⟩
      = .error (serviceError "Snapshot contains no resources to resume") :=
  validate_snapshot_checks.2.2 _ _ _ _ _ rfl

end DiscoveryAndValidation

section SnapshotCompleteness

lemma lookupJ_insertJ_self (l : List (String × Json)) (k : String) (v : Json) :
    lookupJ (insertJ l k v) k = some v := by
  induction l with
  | nil => simp [insertJ, lookupJ]
  | cons p rest ih =>
      by_cases h : p.1 = k
      · simp [insertJ, h, lookupJ]
      · simp [insertJ, h, lookupJ, ih]

lemma lookupJ_insertJ_ne (l : List (String × Json)) (k k' : String) (v : Json)
    (h : k ≠ k') : lookupJ (insertJ l k v) k' = lookupJ l k' := by
  induction l with
  | nil => simp [insertJ, lookupJ, h]
  | cons p rest ih =>
      by_cases hp : p.1 = k
      · subst hp
        simp [insertJ, lookupJ, h]
      · simp [insertJ, hp, lookupJ, ih]

lemma lookupJ_foldl_insert_preserve (xs : List Resource)
    (acc : List (String × Json)) (key : String) (v : Json)
    (h : ∀ y ∈ xs, y.stateKey ≠ key) (hl : lookupJ acc key = some v) :
    lookupJ (xs.foldl (fun a r => insertJ a r.stateKey r.originalEntry) acc) key
      = some v := by
  induction xs generalizing acc with
  | nil => simpa using hl
  | cons x rest ih =>
      rw [List.foldl_cons]
      refine ih _ (fun y hy => h y (List.mem_cons_of_mem _ hy)) ?_
      rw [lookupJ_insertJ_ne _ _ _ _ (h x (List.mem_cons_self _ _))]
      exact hl

lemma lookupJ_buildOriginalStates_aux (xs : List Resource)
    (acc : List (String × Json))
    (hdist : xs.Pairwise fun a b => a.stateKey ≠ b.stateKey) :
    ∀ r ∈ xs,
      lookupJ (xs.foldl (fun a r => insertJ a r.stateKey r.originalEntry) acc)
          r.stateKey
        = some r.originalEntry := by
  induction xs generalizing acc with
  | nil => simp
  | cons x rest ih =>
      intro r hr
      rw [List.foldl_cons]
      rcases List.mem_cons.mp hr with h | h
      · subst h
        refine lookupJ_foldl_insert_preserve rest _ _ _
          (fun y hy => (List.pairwise_cons.mp hdist).1 y hy |>.symm
            |> fun hne => hne) ?_
        · exact lookupJ_insertJ_self _ _ _
      · exact ih _ (List.pairwise_cons.mp hdist).2 r h

/-- **C4.** For every resource list handed to `pause_resources` whose
composite keys are pairwise distinct (the data-model invariant that
`(kind, region, id)` identifies a resource), the returned snapshot stores
the full list as `resources`, and for each of them `original_states` holds
exactly its pre-mutation `current_state` and `metadata` under the composite
key — the freeze loop runs over the input values before any driver call and
the snapshot is assembled from those frozen values. -/
theorem snapshot_completeness (mgrs : Managers) (resources : List Resource)
    (startTime : DateTime)
    (hdist : resources.Pairwise fun a b => a.stateKey ≠ b.stateKey) :
    (pauseResources mgrs resources startTime).2.resources = resources
      ∧ ∀ r ∈ (pauseResources mgrs resources startTime).2.resources,
          lookupJ (pauseResources mgrs resources startTime).2.original_states
              r.stateKey
            = some r.originalEntry := by
  refine ⟨rfl, ?_⟩
  intro r hr
  exact lookupJ_buildOriginalStates_aux resources [] hdist r hr

/-- Witness for `snapshot_completeness` at a two-resource input with
distinct composite keys. -/
theorem snapshot_completeness_witness :
    lookupJ
        (pauseResources (fun _ => none)
          [{ service_type := "ec2", resource_id := "i-1",
             region := "us-east-1", current_state := "running",
             tags := [], metadata := [("instance_type", Json.str "t3.micro")] },
           { service_type := "rds", resource_id := "db-1",
             region := "us-east-1", current_state := "available",
             tags := [], metadata := [] }]
          ⟨2024, 1, 1, 0, 0, 0⟩).2.original_states
        "ec2:us-east-1:i-1"
      = some (Json.obj
          [("current_state", Json.str "running"),
           ("metadata", Json.obj [("instance_type", Json.str "t3.micro")])]) := by
  have h := (snapshot_completeness (fun _ => none)
    [{ service_type := "ec2", resource_id := "i-1",
       region := "us-east-1", current_state := "running",
       tags := [], metadata := [("instance_type", Json.str "t3.micro")] },
     { service_type := "rds", resource_id := "db-1",
       region := "us-east-1", current_state := "available",
       tags := [], metadata := [] }]
    ⟨2024, 1, 1, 0, 0, 0⟩
    (by simp [Resource.stateKey])).2
  exact h _ (List.mem_cons_self _ _)

end SnapshotCompleteness

section PausabilityGate

lemma foldl_applyTagFilter_nil (kvs : List (String × String)) :
    kvs.foldl applyTagFilter [] = [] := by
  induction kvs with
  | nil => rfl
  | cons kv rest ih => simpa [applyTagFilter] using ih

lemma foldl_applyExcludeTagFilter_nil (kvs : List (String × String)) :
    kvs.foldl applyExcludeTagFilter [] = [] := by
  induction kvs with
  | nil => rfl
  | cons kv rest ih => simpa [applyExcludeTagFilter] using ih

lemma applyResourceFilters_nil (filters : Option Filters) :
    applyResourceFilters [] filters = [] := by
  cases filters with
  | none => rfl
  | some f =>
      rw [applyResourceFilters]
      have h1 : stageServiceTypes f.service_types [] = [] := by
        cases f.service_types <;> rfl
      rw [h1]
      have h2 : stageRegions f.regions [] = [] := by
        cases f.regions <;> rfl
      rw [h2]
      have h3 : stageTags f.tags [] = [] := by
        cases f.tags with
        | none => rfl
        | some kvs => exact foldl_applyTagFilter_nil kvs
      rw [h3]
      have h4 : stageExcludeTags f.exclude_tags [] = [] := by
        cases f.exclude_tags with
        | none => rfl
        | some kvs => exact foldl_applyExcludeTagFilter_nil kvs
      rw [h4]
      have h5 : stageResourceIds f.resource_ids [] = [] := by
        cases f.resource_ids <;> rfl
      rw [h5]
      cases f.exclude_resource_ids <;> rfl

/-- **C1 (corrected).** The comprehensive pause operation never hands a
non-pausable resource to a driver: the result sequence of a non-dry-run is
exactly one driver invocation per element of the pausability-filtered list,
and every element of that list satisfies the pausability rule.  Resources
that fail the rule are silently dropped by `_filter_pausable_resources` —
they yield *no* `OperationResult` at all (the "already …" messages live in
the drivers, which are never reached on this path). -/
theorem pausability_gate (mgrs : Managers) (allResources : List Resource)
    (filters : Option Filters) (now : DateTime) :
    (comprehensivePause mgrs allResources filters false now).1
        = (filterPausableResources
            (applyResourceFilters allResources filters)).map
            (invokeManager mgrs "pause" now)
      ∧ ∀ r ∈ filterPausableResources (applyResourceFilters allResources filters),
          isResourcePausable r = true := by
  refine ⟨?_, fun r hr => (List.mem_filter.mp hr).2⟩
  simp only [comprehensivePause]
  by_cases h1 : allResources.isEmpty
  · rw [if_pos h1, List.isEmpty_iff.mp h1, applyResourceFilters_nil]
    rfl
  · rw [if_neg h1]
    by_cases h2 : (filterPausableResources
        (applyResourceFilters allResources filters)).isEmpty
    · rw [if_pos h2, List.isEmpty_iff.mp h2]
      rfl
    · rw [if_neg h2]
      rfl

/-- Counterexample to C1 as stated: a stopped EC2 instance is not pausable,
and the comprehensive pause over it returns the *empty* result sequence —
there is no non-success "already …" result for it. -/
theorem pausability_gate_counterexample :
    isResourcePausable
        { service_type := "ec2", resource_id := "i-1", region := "us-east-1",
          current_state := "stopped", tags := [], metadata := [] } = false
      ∧ comprehensivePause (fun _ => none)
          [{ service_type := "ec2", resource_id := "i-1",
             region := "us-east-1", current_state := "stopped",
             tags := [], metadata := [] }]
          none false ⟨2024, 1, 1, 0, 0, 0⟩
        = ([], none) :=
  ⟨rfl, rfl⟩

end PausabilityGate

section FilterMonotonicity

lemma applyTagFilter_subset (rs : List Resource) (kv : String × String) :
    applyTagFilter rs kv ⊆ rs :=
  List.filter_subset' rs

lemma applyExcludeTagFilter_subset (rs : List Resource) (kv : String × String) :
    applyExcludeTagFilter rs kv ⊆ rs :=
  List.filter_subset' rs

lemma foldl_applyTagFilter_subset (kvs : List (String × String)) :
    ∀ rs : List Resource, kvs.foldl applyTagFilter rs ⊆ rs := by
  induction kvs with
  | nil => exact fun rs => List.Subset.refl rs
  | cons kv rest ih =>
      intro rs
      rw [List.foldl_cons]
      exact (ih _).trans (applyTagFilter_subset rs kv)

lemma foldl_applyExcludeTagFilter_subset (kvs : List (String × String)) :
    ∀ rs : List Resource, kvs.foldl applyExcludeTagFilter rs ⊆ rs := by
  induction kvs with
  | nil => exact fun rs => List.Subset.refl rs
  | cons kv rest ih =>
      intro rs
      rw [List.foldl_cons]
      exact (ih _).trans (applyExcludeTagFilter_subset rs kv)

lemma foldl_applyTagFilter_mono (kvs : List (String × String)) :
    ∀ {rs rs' : List Resource}, rs ⊆ rs' →
      kvs.foldl applyTagFilter rs ⊆ kvs.foldl applyTagFilter rs' := by
  induction kvs with
  | nil => exact fun h => h
  | cons kv rest ih =>
      intro rs rs' h
      rw [List.foldl_cons, List.foldl_cons]
      exact ih (List.monotone_filter_left _ h)

lemma foldl_applyExcludeTagFilter_mono (kvs : List (String × String)) :
    ∀ {rs rs' : List Resource}, rs ⊆ rs' →
      kvs.foldl applyExcludeTagFilter rs ⊆ kvs.foldl applyExcludeTagFilter rs' := by
  induction kvs with
  | nil => exact fun h => h
  | cons kv rest ih =>
      intro rs rs' h
      rw [List.foldl_cons, List.foldl_cons]
      exact ih (List.monotone_filter_left _ h)

lemma stageServiceTypes_subset (o : Option (List String)) (rs : List Resource) :
    stageServiceTypes o rs ⊆ rs := by
  cases o with
  | none => exact List.Subset.refl rs
  | some l => exact List.filter_subset' rs

lemma stageRegions_subset (o : Option (List String)) (rs : List Resource) :
    stageRegions o rs ⊆ rs := by
  cases o with
  | none => exact List.Subset.refl rs
  | some l => exact List.filter_subset' rs

lemma stageTags_subset (o : Option (List (String × String)))
    (rs : List Resource) : stageTags o rs ⊆ rs := by
  cases o with
  | none => exact List.Subset.refl rs
  | some kvs => exact foldl_applyTagFilter_subset kvs rs

lemma stageExcludeTags_subset (o : Option (List (String × String)))
    (rs : List Resource) : stageExcludeTags o rs ⊆ rs := by
  cases o with
  | none => exact List.Subset.refl rs
  | some kvs => exact foldl_applyExcludeTagFilter_subset kvs rs

lemma stageResourceIds_subset (o : Option (List String)) (rs : List Resource) :
    stageResourceIds o rs ⊆ rs := by
  cases o with
  | none => exact List.Subset.refl rs
  | some l => exact List.filter_subset' rs

lemma stageExcludeResourceIds_subset (o : Option (List String))
    (rs : List Resource) : stageExcludeResourceIds o rs ⊆ rs := by
  cases o with
  | none => exact List.Subset.refl rs
  | some l => exact List.filter_subset' rs

lemma stageServiceTypes_mono (o : Option (List String))
    {rs rs' : List Resource} (h : rs ⊆ rs') :
    stageServiceTypes o rs ⊆ stageServiceTypes o rs' := by
  cases o with
  | none => exact h
  | some l => exact List.monotone_filter_left _ h

lemma stageRegions_mono (o : Option (List String))
    {rs rs' : List Resource} (h : rs ⊆ rs') :
    stageRegions o rs ⊆ stageRegions o rs' := by
  cases o with
  | none => exact h
  | some l => exact List.monotone_filter_left _ h

lemma stageTags_mono (o : Option (List (String × String)))
    {rs rs' : List Resource} (h : rs ⊆ rs') :
    stageTags o rs ⊆ stageTags o rs' := by
  cases o with
  | none => exact h
  | some kvs => exact foldl_applyTagFilter_mono kvs h

lemma stageExcludeTags_mono (o : Option (List (String × String)))
    {rs rs' : List Resource} (h : rs ⊆ rs') :
    stageExcludeTags o rs ⊆ stageExcludeTags o rs' := by
  cases o with
  | none => exact h
  | some kvs => exact foldl_applyExcludeTagFilter_mono kvs h

lemma stageResourceIds_mono (o : Option (List String))
    {rs rs' : List Resource} (h : rs ⊆ rs') :
    stageResourceIds o rs ⊆ stageResourceIds o rs' := by
  cases o with
  | none => exact h
  | some l => exact List.monotone_filter_left _ h

lemma stageExcludeResourceIds_mono (o : Option (List String))
    {rs rs' : List Resource} (h : rs ⊆ rs') :
    stageExcludeResourceIds o rs ⊆ stageExcludeResourceIds o rs' := by
  cases o with
  | none => exact h
  | some l => exact List.monotone_filter_left _ h

lemma stageTags_append_subset (o : Option (List (String × String)))
    (k v : String) (rs : List Resource) :
    stageTags (some (o.getD [] ++ [(k, v)])) rs ⊆ stageTags o rs := by
  cases o with
  | none =>
      show ([] ++ [(k, v)] : List (String × String)).foldl applyTagFilter rs ⊆ rs
      rw [List.nil_append]
      exact foldl_applyTagFilter_subset [(k, v)] rs
  | some kvs =>
      show (kvs ++ [(k, v)]).foldl applyTagFilter rs
        ⊆ kvs.foldl applyTagFilter rs
      rw [List.foldl_append]
      exact foldl_applyTagFilter_subset [(k, v)] _

lemma stageExcludeTags_append_subset (o : Option (List (String × String)))
    (k v : String) (rs : List Resource) :
    stageExcludeTags (some (o.getD [] ++ [(k, v)])) rs
      ⊆ stageExcludeTags o rs := by
  cases o with
  | none =>
      show ([] ++ [(k, v)] : List (String × String)).foldl
        applyExcludeTagFilter rs ⊆ rs
      rw [List.nil_append]
      exact foldl_applyExcludeTagFilter_subset [(k, v)] rs
  | some kvs =>
      show (kvs ++ [(k, v)]).foldl applyExcludeTagFilter rs
        ⊆ kvs.foldl applyExcludeTagFilter rs
      rw [List.foldl_append]
      exact foldl_applyExcludeTagFilter_subset [(k, v)] _

/-- **C7.** The filter layer only ever narrows: its output is a subset of
its input; adding any clause (service types, regions, a required tag pair,
a forbidden tag pair, ids, excluded ids) to a filter set can only shrink
the output; and an absent (`None`) or empty filter dict returns the input
unchanged. -/
theorem filter_monotonicity :
    (∀ (R : List Resource) (F : Option Filters),
        applyResourceFilters R F ⊆ R)
      ∧ (∀ (R : List Resource) (f : Filters) (c : FilterClause),
          f.admitsClause c →
            applyResourceFilters R (some (f.addClause c))
              ⊆ applyResourceFilters R (some f))
      ∧ (∀ R : List Resource, applyResourceFilters R none = R)
      ∧ (∀ R : List Resource, applyResourceFilters R (some Filters.empty) = R) := by
  refine ⟨?_, ?_, fun R => rfl, fun R => rfl⟩
  · intro R F
    cases F with
    | none => exact List.Subset.refl R
    | some f =>
        exact (stageExcludeResourceIds_subset _ _).trans
          ((stageResourceIds_subset _ _).trans
            ((stageExcludeTags_subset _ _).trans
              ((stageTags_subset _ _).trans
                ((stageRegions_subset _ _).trans
                  (stageServiceTypes_subset _ _)))))
  · intro R f c hc
    cases c with
    | serviceTypes l =>
        have h0 : f.service_types = none := hc
        show stageExcludeResourceIds f.exclude_resource_ids
            (stageResourceIds f.resource_ids
              (stageExcludeTags f.exclude_tags
                (stageTags f.tags
                  (stageRegions f.regions
                    (stageServiceTypes (some l) R))))) ⊆ _
        rw [applyResourceFilters, h0]
        exact stageExcludeResourceIds_mono _ (stageResourceIds_mono _
          (stageExcludeTags_mono _ (stageTags_mono _ (stageRegions_mono _
            (List.filter_subset' R)))))
    | regionsIn l =>
        have h0 : f.regions = none := hc
        show stageExcludeResourceIds f.exclude_resource_ids
            (stageResourceIds f.resource_ids
              (stageExcludeTags f.exclude_tags
                (stageTags f.tags
                  (stageRegions (some l)
                    (stageServiceTypes f.service_types R))))) ⊆ _
        rw [applyResourceFilters, h0]
        exact stageExcludeResourceIds_mono _ (stageResourceIds_mono _
          (stageExcludeTags_mono _ (stageTags_mono _
            (List.filter_subset' _))))
    | tagPair k v =>
        show stageExcludeResourceIds f.exclude_resource_ids
            (stageResourceIds f.resource_ids
              (stageExcludeTags f.exclude_tags
                (stageTags (some (f.tags.getD [] ++ [(k, v)]))
                  (stageRegions f.regions
                    (stageServiceTypes f.service_types R))))) ⊆ _
        rw [applyResourceFilters]
        exact stageExcludeResourceIds_mono _ (stageResourceIds_mono _
          (stageExcludeTags_mono _ (stageTags_append_subset _ _ _ _)))
    | excludeTagPair k v =>
        show stageExcludeResourceIds f.exclude_resource_ids
            (stageResourceIds f.resource_ids
              (stageExcludeTags (some (f.exclude_tags.getD [] ++ [(k, v)]))
                (stageTags f.tags
                  (stageRegions f.regions
                    (stageServiceTypes f.service_types R))))) ⊆ _
        rw [applyResourceFilters]
        exact stageExcludeResourceIds_mono _ (stageResourceIds_mono _
          (stageExcludeTags_append_subset _ _ _ _))
    | resourceIds l =>
        have h0 : f.resource_ids = none := hc
        show stageExcludeResourceIds f.exclude_resource_ids
            (stageResourceIds (some l)
              (stageExcludeTags f.exclude_tags
                (stageTags f.tags
                  (stageRegions f.regions
                    (stageServiceTypes f.service_types R))))) ⊆ _
        rw [applyResourceFilters, h0]
        exact stageExcludeResourceIds_mono _ (List.filter_subset' _)
    | excludeResourceIds l =>
        have h0 : f.exclude_resource_ids = none := hc
        show stageExcludeResourceIds (some l)
            (stageResourceIds f.resource_ids
              (stageExcludeTags f.exclude_tags
                (stageTags f.tags
                  (stageRegions f.regions
                    (stageServiceTypes f.service_types R))))) ⊆ _
        rw [applyResourceFilters, h0]
        exact List.filter_subset' _

/-- Witness for `filter_monotonicity`: adding a `service_types` clause to
the empty filter set shrinks the output on a concrete resource list. -/
theorem filter_monotonicity_witness :
    applyResourceFilters
        [{ service_type := "rds", resource_id := "db-1",
           region := "us-east-1", current_state := "available",
           tags := [], metadata := [] }]
        (some (Filters.empty.addClause (.serviceTypes ["ec2"])))
      ⊆ applyResourceFilters
        [{ service_type := "rds", resource_id := "db-1",
           region := "us-east-1", current_state := "available",
           tags := [], metadata := [] }]
        (some Filters.empty) :=
  filter_monotonicity.2.1 _ _ _ rfl

end FilterMonotonicity

section MoreWitnesses

/-- Witness for `pausability_gate`: a running EC2 instance passes the gate
of a concrete comprehensive pause. -/
theorem pausability_gate_witness :
    isResourcePausable
        { service_type := "ec2", resource_id := "i-2", region := "us-east-1",
          current_state := "running", tags := [], metadata := [] } = true :=
  (pausability_gate (fun _ => none)
      [{ service_type := "ec2", resource_id := "i-2", region := "us-east-1",
         current_state := "running", tags := [], metadata := [] }]
      none ⟨2024, 1, 1, 0, 0, 0⟩).2 _
    (List.mem_filter.mpr ⟨List.mem_cons_self _ _, rfl⟩)

end MoreWitnesses

section ResumeScaleDefaults

/-- **C10 (corrected).** On the happy path the ECS / Auto Scaling resume
drivers read the restore scale from the resource's snapshot-time metadata,
defaulting to `1` when the key is absent — *except* that an instance-group
whose snapshot-time state is `running` is rejected by the already-running
guard with a failure result and no scaling call at all.  (For ECS a missing
`desired_count` makes the guard read `0`, so the guard cannot fire and the
default restore to `1` always happens.) -/
theorem resume_restore_scale :
    (∀ (r : Resource) (now : DateTime) (arn : String),
        lookupJ r.metadata "desired_count" = none →
        lookupJ r.metadata "cluster_arn" = some (.str arn) →
          (ecsResumeResource r now).1
              = [.updateService arn r.resource_id 1]
            ∧ (ecsResumeResource r now).2.success = true)
      ∧ (∀ (r : Resource) (now : DateTime),
          lookupJ r.metadata "desired_capacity" = none →
          r.current_state ≠ "running" →
            (asgResumeResource r now).1
                = [.resumeProcesses r.resource_id scalingProcessSet,
                   .setDesiredCapacity r.resource_id 1]
              ∧ (asgResumeResource r now).2.success = true)
      ∧ (∀ (r : Resource) (now : DateTime) (q : ℚ) (arn : String),
          lookupJ r.metadata "cluster_arn" = some (.str arn) →
          lookupJ r.metadata "desired_count" = some (.num q) →
          ¬(r.current_state = "running" ∧ 0 < q) →
            (ecsResumeResource r now).1
              = [.updateService arn r.resource_id q])
      ∧ (∀ (r : Resource) (now : DateTime) (q : ℚ),
          lookupJ r.metadata "desired_capacity" = some (.num q) →
          r.current_state ≠ "running" →
            (asgResumeResource r now).1
              = [.resumeProcesses r.resource_id scalingProcessSet,
                 .setDesiredCapacity r.resource_id q]) := by
  refine ⟨?_, ?_, ?_, ?_⟩
  · intro r now arn hdc harn
    rw [ecsResumeResource]
    by_cases hs : r.current_state = "running"
    · rw [if_pos hs, hdc]
      simp only [Option.getD_some, Option.getD_none]
      rw [if_neg (by norm_num), harn]
      exact ⟨rfl, rfl⟩
    · rw [if_neg hs, harn, hdc]
      exact ⟨rfl, rfl⟩
  · intro r now hdc hs
    rw [asgResumeResource, if_neg hs, hdc]
    exact ⟨rfl, rfl⟩
  · intro r now q arn harn hdc hguard
    rw [ecsResumeResource]
    by_cases hs : r.current_state = "running"
    · rw [if_pos hs, hdc]
      simp only [Option.getD_some]
      have hq : ¬ 0 < q := fun h => hguard ⟨hs, h⟩
      rw [if_neg hq, harn]
    · rw [if_neg hs, harn, hdc]
      rfl
  · intro r now q hdc hs
    rw [asgResumeResource, if_neg hs, hdc]
    rfl

/-- Counterexample to C10 as stated: an instance-group captured in state
`running` with no `desired_capacity` key is *failed* by the resume driver
("already running"), with no scaling call — it is not restored to the
default of 1. -/
theorem resume_restore_scale_counterexample :
    lookupJ
        (Resource.metadata
          { service_type := "autoscaling", resource_id := "asg-1",
            region := "us-east-1", current_state := "running",
            tags := [], metadata := [] })
        "desired_capacity" = none
      ∧ (asgResumeResource
          { service_type := "autoscaling", resource_id := "asg-1",
            region := "us-east-1", current_state := "running",
            tags := [], metadata := [] }
          ⟨2024, 1, 1, 0, 0, 0⟩).1 = []
      ∧ (asgResumeResource
          { service_type := "autoscaling", resource_id := "asg-1",
            region := "us-east-1", current_state := "running",
            tags := [], metadata := [] }
          ⟨2024, 1, 1, 0, 0, 0⟩).2
        = { success := false,
            resource := { service_type := "autoscaling",
                          resource_id := "asg-1", region := "us-east-1",
                          current_state := "running", tags := [],
                          metadata := [] },
            operation := "resume",
            message := "Auto Scaling Group asg-1 is already running",
            timestamp := ⟨2024, 1, 1, 0, 0, 0⟩, duration := some 0 } :=
  ⟨rfl, rfl, rfl⟩

/-- Witness for `resume_restore_scale`: a container service with no
`desired_count` in its metadata is restored to the default desired count 1. -/
theorem resume_restore_scale_witness :
    (ecsResumeResource
        { service_type := "ecs", resource_id := "svc-1",
          region := "us-east-1", current_state := "stopped", tags := [],
          metadata := [("cluster_arn", Json.str "arn:cluster")] }
        ⟨2024, 1, 1, 0, 0, 0⟩).1
      = [.updateService "arn:cluster" "svc-1" 1] :=
  ((resume_restore_scale.1
      { service_type := "ecs", resource_id := "svc-1",
        region := "us-east-1", current_state := "stopped", tags := [],
        metadata := [("cluster_arn", Json.str "arn:cluster")] }
      ⟨2024, 1, 1, 0, 0, 0⟩ "arn:cluster" rfl rfl).1)

end ResumeScaleDefaults

section SaveSnapshotBehaviour

lemma FS.read_write_self (fs : FS) (name : String) (d : FileData) :
    (fs.write name d).read name = some d := by
  show FS.read ((name, d) :: fs.erase name) name = some d
  simp [FS.read]

lemma FS.read_erase_ne (fs : FS) (n m : String) (h : n ≠ m) :
    (fs.erase n).read m = fs.read m := by
  induction fs with
  | nil => rfl
  | cons p rest ih =>
      by_cases hp : p.1 = n
      · have hm : p.1 ≠ m := fun hq => h (hp ▸ hq)
        simp [FS.erase, FS.read, hp, hm, ih, h]
      · by_cases hm : p.1 = m
        · simp [FS.erase, FS.read, hp, hm, Ne.symm h]
        · simp [FS.erase, FS.read, hp, hm, ih]

lemma FS.read_erase_self (fs : FS) (name : String) :
    (fs.erase name).read name = none := by
  induction fs with
  | nil => rfl
  | cons p rest ih =>
      by_cases h : p.1 = name
      · simpa [FS.erase, h] using ih
      · simpa [FS.erase, FS.read, h] using ih

/-- **C5 (corrected).** `save_snapshot` writes the serialised snapshot to
the sibling `<id>.tmp` file and atomically renames it onto `<id>.json`; on
success no temp file remains.  On any failure a `StateError` (category
`state`) is raised — but the temp file is *not* cleaned up: a failure during
the write leaves a partial `<id>.tmp` behind, and a failure during the
rename leaves the fully-written `<id>.tmp` behind. -/
theorem save_snapshot_behaviour (fs : FS) (snap : AccountSnapshot) (e : String) :
    ((saveSnapshot fs snap .ok).2 = .ok (snap.snapshot_id ++ ".json")
      ∧ (saveSnapshot fs snap .ok).1.read (snap.snapshot_id ++ ".json")
          = some (.valid (serializeSnapshot snap))
      ∧ (saveSnapshot fs snap .ok).1.read (snap.snapshot_id ++ ".tmp") = none)
    ∧ ((saveSnapshot fs snap (.atWrite e)).2
          = .error (stateError ("Failed to save snapshot: " ++ e))
      ∧ (saveSnapshot fs snap (.atWrite e)).1.read (snap.snapshot_id ++ ".tmp")
          = some .corrupt)
    ∧ ((saveSnapshot fs snap (.atRename e)).2
          = .error (stateError ("Failed to save snapshot: " ++ e))
      ∧ (saveSnapshot fs snap (.atRename e)).1.read (snap.snapshot_id ++ ".tmp")
          = some (.valid (serializeSnapshot snap))) := by
  have hne : snap.snapshot_id ++ ".json" ≠ snap.snapshot_id ++ ".tmp" := by
    intro h
    have h2 := congrArg String.length h
    rw [String.length_append, String.length_append] at h2
    have h3 : (".json" : String).length = 5 := rfl
    have h4 : (".tmp" : String).length = 4 := rfl
    omega
  refine ⟨⟨rfl, ?_, ?_⟩, ⟨rfl, ?_⟩, ⟨rfl, ?_⟩⟩
  · show (FS.rename (FS.write fs _ _) _ _).read _ = _
    rw [FS.rename, FS.read_write_self]
    exact FS.read_write_self _ _ _
  · show (FS.rename (FS.write fs _ _) _ _).read _ = _
    rw [FS.rename, FS.read_write_self]
    show FS.read ((snap.snapshot_id ++ ".json", _) :: _) _ = none
    rw [FS.read, if_neg hne, FS.read_erase_ne _ _ _ hne]
    exact FS.read_erase_self _ _
  · exact FS.read_write_self _ _ _
  · exact FS.read_write_self _ _ _

/-- Counterexample to C5 as stated: a failure while writing the snapshot
JSON leaves the partial `<id>.tmp` on disk (the `except` block raises the
storage error without removing it). -/
theorem save_snapshot_temp_counterexample :
    (saveSnapshot []
        { snapshot_id := "pause-20240101-000000",
          timestamp := ⟨2024, 1, 1, 0, 0, 0⟩,
          resources := [], original_states := [],
          operation_results := [], total_estimated_savings := 0 }
        (.atWrite "disk full")).1.read "pause-20240101-000000.tmp"
      = some FileData.corrupt
    ∧ (saveSnapshot []
        { snapshot_id := "pause-20240101-000000",
          timestamp := ⟨2024, 1, 1, 0, 0, 0⟩,
          resources := [], original_states := [],
          operation_results := [], total_estimated_savings := 0 }
        (.atWrite "disk full")).2
      = .error (stateError "Failed to save snapshot: disk full") :=
  ⟨rfl, rfl⟩

end SaveSnapshotBehaviour

section SnapshotRoundTrip

lemma mapOption_roundtrip {α β : Type} (f : α → β) (g : β → Option α) :
    ∀ l : List α, (∀ x ∈ l, g (f x) = some x) →
      mapOption g (l.map f) = some l
  | [], _ => by rfl
  | x :: xs, h => by
      rw [List.map_cons, mapOption, h x (List.mem_cons_self _ _),
        mapOption_roundtrip f g xs fun y hy => h y (List.mem_cons_of_mem _ hy)]

lemma tagsOfJson_map (tags : List (String × String)) :
    tagsOfJson (.obj (tags.map fun kv => (kv.1, .str kv.2))) = some tags := by
  rw [tagsOfJson]
  exact mapOption_roundtrip _ _ tags fun x hx => by cases x; rfl

lemma deserializeResource_serializeResource (r : Resource) :
    deserializeResource (serializeResource r) = some r := by
  obtain ⟨st, rid, rg, cs, tags, md, cost⟩ := r
  cases cost with
  | none =>
      simp [serializeResource, deserializeResource, lookupJ, asStr,
        tagsOfJson_map, Option.bind]
  | some q =>
      simp [serializeResource, deserializeResource, lookupJ, asStr,
        tagsOfJson_map, Option.bind]

lemma deserializeOperationResult_roundtrip (res : OperationResult)
    (h : res.timestamp.Valid) :
    deserializeOperationResult (serializeOperationResult res) = some res := by
  obtain ⟨ok, r, op, msg, ts, dur⟩ := res
  cases dur with
  | none =>
      simp [serializeOperationResult, deserializeOperationResult, lookupJ,
        asStr, asBool, Option.bind, deserializeResource_serializeResource,
        fromisoformat_isoformat _ h]
  | some q =>
      simp [serializeOperationResult, deserializeOperationResult, lookupJ,
        asStr, asBool, Option.bind, deserializeResource_serializeResource,
        fromisoformat_isoformat _ h]

lemma deserializeSnapshot_roundtrip (s : AccountSnapshot)
    (h1 : s.timestamp.Valid)
    (h2 : ∀ res ∈ s.operation_results, res.timestamp.Valid) :
    deserializeSnapshot (serializeSnapshot s) = some s := by
  obtain ⟨sid, ts, rs, states, ors, tot⟩ := s
  have hrs : mapOption deserializeResource (rs.map serializeResource)
      = some rs :=
    mapOption_roundtrip _ _ rs fun x _ =>
      deserializeResource_serializeResource x
  have hors : mapOption deserializeOperationResult
      (ors.map serializeOperationResult) = some ors :=
    mapOption_roundtrip _ _ ors fun x hx =>
      deserializeOperationResult_roundtrip x (h2 x hx)
  cases rs with
  | nil =>
      simp only [List.map_nil] at hrs
      simp [serializeSnapshot, deserializeSnapshot, lookupJ, asStr,
        Option.bind, fromisoformat_isoformat _ h1, hrs, hors]
  | cons r rest =>
      simp only [List.map_cons] at hrs
      simp [serializeSnapshot, deserializeSnapshot, lookupJ, asStr,
        Option.bind, fromisoformat_isoformat _ h1, hrs, hors]

/-- **C6.** Saving a snapshot and loading it back by its id returns a
snapshot equal to the original — exactly, at the model's second-level
timestamp precision and with `original_states` preserved verbatim as the
same key-value map — for any JSON metadata values, provided each recorded
timestamp has in-range fields (always true of real `datetime` values). -/
theorem snapshot_roundtrip (fs : FS) (s : AccountSnapshot)
    (h1 : s.timestamp.Valid)
    (h2 : ∀ res ∈ s.operation_results, res.timestamp.Valid) :
    loadSnapshot (saveSnapshot fs s .ok).1 s.snapshot_id = .ok (some s) := by
  have hsave : (saveSnapshot fs s .ok).1.read (s.snapshot_id ++ ".json")
      = some (.valid (serializeSnapshot s)) :=
    ((save_snapshot_behaviour fs s "").1).2.1
  rw [loadSnapshot, hsave]
  simp only [deserializeSnapshot_roundtrip s h1 h2]

/-- Witness for `snapshot_roundtrip` at a concrete snapshot with one
resource, one recorded result and a nested metadata tree. -/
theorem snapshot_roundtrip_witness :
    loadSnapshot
        (saveSnapshot []
          { snapshot_id := "pause-20240102-030405",
            timestamp := ⟨2024, 1, 2, 3, 4, 5⟩,
            resources :=
              [{ service_type := "ecs", resource_id := "svc-1",
                 region := "eu-west-1", current_state := "running",
                 tags := [("env", "dev")],
                 metadata :=
                   [("desired_count", Json.num 2),
                    ("load_balancers", Json.arr [Json.obj
                      [("target_group_arn", Json.str "arn:tg")]])],
                 cost_per_hour := some (1 / 2) }],
            original_states :=
              [("ecs:eu-west-1:svc-1", Json.obj
                [("current_state", Json.str "running"),
                 ("metadata", Json.obj [("desired_count", Json.num 2)])])],
            operation_results :=
              [{ success := true,
                 resource :=
                   { service_type := "ecs", resource_id := "svc-1",
                     region := "eu-west-1", current_state := "running",
                     tags := [], metadata := [] },
                 operation := "pause", message := "ok",
                 timestamp := ⟨2024, 1, 2, 3, 4, 6⟩, duration := some 3 }],
            total_estimated_savings := 360 }
          .ok).1
        "pause-20240102-030405"
      = .ok (some
          { snapshot_id := "pause-20240102-030405",
            timestamp := ⟨2024, 1, 2, 3, 4, 5⟩,
            resources :=
              [{ service_type := "ecs", resource_id := "svc-1",
                 region := "eu-west-1", current_state := "running",
                 tags := [("env", "dev")],
                 metadata :=
                   [("desired_count", Json.num 2),
                    ("load_balancers", Json.arr [Json.obj
                      [("target_group_arn", Json.str "arn:tg")]])],
                 cost_per_hour := some (1 / 2) }],
            original_states :=
              [("ecs:eu-west-1:svc-1", Json.obj
                [("current_state", Json.str "running"),
                 ("metadata", Json.obj [("desired_count", Json.num 2)])])],
            operation_results :=
              [{ success := true,
                 resource :=
                   { service_type := "ecs", resource_id := "svc-1",
                     region := "eu-west-1", current_state := "running",
                     tags := [], metadata := [] },
                 operation := "pause", message := "ok",
                 timestamp := ⟨2024, 1, 2, 3, 4, 6⟩, duration := some 3 }],
            total_estimated_savings := 360 }) :=
  snapshot_roundtrip _ _ (by decide)
    (by intro res hres
        simp only [List.mem_singleton] at hres
        subst hres
        decide)

end SnapshotRoundTrip
